import Mathlib

/-!
Shallow embedding of the Footbot quota/credit accounting core.

Sources embedded here:
* `src/unnamed/part_004` — the mongoose User schema and its methods
  `canSendMessage`, `deductMessage`, `addCredits`.
* `src/src/database/models/Settings.ts` — the global Settings record.
* `src/src/services/quotaService.ts` — `QuotaService.checkQuota` and
  `QuotaService.deductMessage`.
* `src/src/services/stripeService.ts` — `StripeService.getCreditPackages`
  and `StripeService.handleCheckoutCompleted`.
* `src/src/bot/telegram.ts` — the photo handler's control flow around
  `matchAnalyzer.analyzeFromImage` and `deductUserMessage`.

Time is modelled as an integer timestamp (milliseconds, as a JS `Date`
compares); JS numbers on these records are integers in practice and are
modelled as `Int`.  Optional document fields are `Option`.  A method that
can `throw` returns `Option`/`Except` with `none`/`error` for the throw.
-/

namespace Footbot

/-- The User document (part_004, interface `IUser`): the fields the quota
and payment logic reads or writes.  `premiumUntil` is an optional `Date`;
a mongoose `Date` is always truthy when present, so the JS test
`this.premiumUntil && this.premiumUntil > new Date()` is
`match premiumUntil with | some t => now < t | none => false`. -/
structure UserState where
  freeMessagesUsed : Int
  freeMessagesLimit : Int
  credits : Int
  totalMessagesSent : Int
  isPremium : Bool
  premiumUntil : Option Int
  isAdmin : Bool
  isBanned : Bool
  banReason : Option String
  totalSpent : Int
  lastActiveAt : Int
  deriving Repr, DecidableEq

/-- The premium test appearing in `canSendMessage` (part_004 line 121) and
`deductMessage` (line 149): `this.isPremium && this.premiumUntil &&
this.premiumUntil > new Date()`. -/
def premiumActive (now : Int) (u : UserState) : Bool :=
  u.isPremium && (match u.premiumUntil with
    | some t => decide (now < t)
    | none => false)

/-- `UserSchema.methods.canSendMessage` (part_004 lines 113–136). -/
def canSendMessage (now : Int) (u : UserState) : Bool :=
  if u.isAdmin then true
  else if u.isBanned then false
  else if premiumActive now u then true
  else if u.freeMessagesUsed < u.freeMessagesLimit then true
  else if 1 ≤ u.credits then true
  else false

/-- `UserSchema.methods.deductMessage` (part_004 lines 139–176).
`none` models the `throw new Error('Insufficient credits')` path; each
`some` is the state after the corresponding early-return branch saved. -/
def deductMessage (now : Int) (u : UserState) : Option UserState :=
  if u.isAdmin then
    some { u with totalMessagesSent := u.totalMessagesSent + 1, lastActiveAt := now }
  else if premiumActive now u then
    some { u with totalMessagesSent := u.totalMessagesSent + 1, lastActiveAt := now }
  else if u.freeMessagesUsed < u.freeMessagesLimit then
    some { u with freeMessagesUsed := u.freeMessagesUsed + 1,
                  totalMessagesSent := u.totalMessagesSent + 1, lastActiveAt := now }
  else if 1 ≤ u.credits then
    some { u with credits := u.credits - 1, totalSpent := u.totalSpent + 1,
                  totalMessagesSent := u.totalMessagesSent + 1, lastActiveAt := now }
  else
    none

/-- `UserSchema.methods.addCredits` (part_004 lines 179–182). -/
def addCredits (amount : Int) (u : UserState) : UserState :=
  { u with credits := u.credits + amount }

/-- One entry of `Settings.creditPackages`
(`src/src/database/models/Settings.ts` lines 53–60).  Every subdocument
field may be absent, hence `Option`. -/
structure StoredPackage where
  id : Option String
  name : Option String
  credits : Option Int
  price : Option Int
  popular : Option Bool
  deriving Repr, DecidableEq

/-- The global Settings record (`Settings.ts`), restricted to the fields the
quota and payment code reads.  `creditPackages` is `none` when the array
field itself is absent. -/
structure SettingsState where
  freeMessagesLimit : Int
  costPerMessage : Int
  creditPackages : Option (List StoredPackage)
  premiumEnabled : Bool
  premiumMonthlyPrice : Int
  premiumYearlyPrice : Int
  maintenanceMode : Bool
  deriving Repr, DecidableEq

/-- Result shape of `QuotaService.checkQuota`
(`quotaService.ts` lines 4–11), without the populated `user` handle. -/
structure QuotaCheckResult where
  allowed : Bool
  reason : Option String
  remainingFreeMessages : Int
  credits : Int
  totalMessages : Int
  deriving Repr, DecidableEq

/-- Default ban text used at `quotaService.ts` line 70. -/
def banFallbackReason : String := "Votre compte a été suspendu."

/-- Maintenance denial text used at `quotaService.ts` line 83. -/
def maintenanceReason : String := "🔧 Le bot est en maintenance. Veuillez réessayer plus tard."

/-- `QuotaService.getNoCreditsMessage` (`quotaService.ts` lines 216–231),
with the display text abbreviated to its interpolated datum. -/
def getNoCreditsMessage (u : UserState) : String :=
  "Quota épuisé ! Tu as utilisé tes " ++ toString u.freeMessagesLimit ++ " analyses gratuites."

/-- `QuotaService.checkQuota` (`quotaService.ts` lines 64–112), applied to
the already-loaded user and settings records. -/
def checkQuota (now : Int) (settings : SettingsState) (u : UserState) : QuotaCheckResult :=
  if u.isBanned then
    { allowed := false
      reason := some (u.banReason.getD banFallbackReason)
      remainingFreeMessages := 0
      credits := u.credits
      totalMessages := u.totalMessagesSent }
  else if settings.maintenanceMode && !u.isAdmin then
    { allowed := false
      reason := some maintenanceReason
      remainingFreeMessages := max 0 (u.freeMessagesLimit - u.freeMessagesUsed)
      credits := u.credits
      totalMessages := u.totalMessagesSent }
  else if !(canSendMessage now u) then
    { allowed := false
      reason := some (getNoCreditsMessage u)
      remainingFreeMessages := max 0 (u.freeMessagesLimit - u.freeMessagesUsed)
      credits := u.credits
      totalMessages := u.totalMessagesSent }
  else
    { allowed := true
      reason := none
      remainingFreeMessages := max 0 (u.freeMessagesLimit - u.freeMessagesUsed)
      credits := u.credits
      totalMessages := u.totalMessagesSent }

/-- Result shape of `QuotaService.deductMessage`
(`quotaService.ts` lines 13–19). -/
structure QuotaDeductResult where
  success : Bool
  wasFree : Bool
  cost : Int
  remainingFreeMessages : Int
  remainingCredits : Int
  deriving Repr, DecidableEq

/-- A Message log document as created at `quotaService.ts` lines 147–157
(database ids omitted). -/
structure MessageRecord where
  type : String
  content : Option String
  homeTeam : Option String
  awayTeam : Option String
  competition : Option String
  wasFree : Bool
  cost : Int
  deriving Repr, DecidableEq

/-- `QuotaService.deductMessage` (`quotaService.ts` lines 117–176), applied
to the loaded user and settings.  The value is the returned result, the
user state after the call, and the list of Message documents created;
`none` models an exception escaping the method (the inner
`user.deductMessage()` throw, which this method does not catch). -/
def serviceDeductMessage (now : Int) (settings : SettingsState) (u : UserState)
    (mtype : Option String) (content homeTeam awayTeam competition : Option String) :
    Option (QuotaDeductResult × UserState × List MessageRecord) :=
  if !(canSendMessage now u) then
    some ({ success := false, wasFree := false, cost := 0,
            remainingFreeMessages := 0, remainingCredits := u.credits }, u, [])
  else
    let wasUsingFreeMessage := decide (u.freeMessagesUsed < u.freeMessagesLimit)
    let cost : Int := if wasUsingFreeMessage then 0 else settings.costPerMessage
    match deductMessage now u with
    | none => none
    | some u' =>
      let msg : MessageRecord :=
        { type := mtype.getD "text", content := content, homeTeam := homeTeam,
          awayTeam := awayTeam, competition := competition,
          wasFree := wasUsingFreeMessage, cost := cost }
      some ({ success := true
              wasFree := wasUsingFreeMessage
              cost := cost
              remainingFreeMessages := max 0 (u'.freeMessagesLimit - u'.freeMessagesUsed)
              remainingCredits := u'.credits }, u', [msg])

/-- The mapped package shape `CreditPackage`
(`stripeService.ts` lines 15–22). -/
structure CreditPackage where
  id : String
  name : String
  credits : Int
  price : Int
  messages : Int
  popular : Bool
  deriving Repr, DecidableEq

/-- The hard-coded fallback catalog `defaultPackages`
(`stripeService.ts` lines 33–38). -/
def defaultPackages : List CreditPackage :=
  [ { id := "pack_10", name := "10 Messages", credits := 10, price := 100, messages := 10, popular := false },
    { id := "pack_50", name := "50 Messages", credits := 50, price := 400, messages := 50, popular := true },
    { id := "pack_100", name := "100 Messages", credits := 100, price := 700, messages := 100, popular := false },
    { id := "pack_500", name := "500 Messages", credits := 500, price := 2500, messages := 500, popular := false } ]

/-- JS truthiness test `!pkg.id` for an optional string field: falsy when
absent or the empty string. -/
def strFalsy : Option String → Bool
  | none => true
  | some s => decide (s = "")

/-- The per-entry validity test at `stripeService.ts` lines 46–48:
`!pkg.id || !pkg.name || pkg.credits === undefined || pkg.price === undefined`. -/
def packageInvalid (p : StoredPackage) : Bool :=
  strFalsy p.id || strFalsy p.name || p.credits.isNone || p.price.isNone

/-- The entry-for-entry mapping at `stripeService.ts` lines 54–61.  On this
path every field passed the validity check, so the `getD` defaults are
never used. -/
def mapStoredPackage (p : StoredPackage) : CreditPackage :=
  { id := p.id.getD ""
    name := p.name.getD ""
    credits := p.credits.getD 0
    price := p.price.getD 0
    messages := p.credits.getD 0
    popular := p.popular.getD false }

/-- `StripeService.getCreditPackages` (`stripeService.ts` lines 29–62),
applied to the loaded settings. -/
def getCreditPackages (settings : SettingsState) : List CreditPackage :=
  match settings.creditPackages with
  | none => defaultPackages
  | some pkgs =>
    if pkgs.length = 0 then defaultPackages
    else if pkgs.any packageInvalid then defaultPackages
    else pkgs.map mapStoredPackage

/-- A Payment document (`src/src/database/models/Payment.ts`), restricted
to the fields the settlement handler reads or writes. -/
structure PaymentState where
  stripePaymentIntentId : String
  amount : Int
  type : String
  status : String
  creditsAdded : Option Int
  deriving Repr, DecidableEq

/-- The fields of a checkout-session event the settlement handler reads
(`stripeService.ts` lines 252–299): the session id and its metadata.
`metaTelegramId` and `metaCredits` hold the already-parsed numbers
(`parseInt(... || '0')` yields `0` when the field is absent). -/
structure CheckoutSession where
  id : String
  metaTelegramId : Int
  metaType : Option String
  metaCredits : Int
  metaPlan : Option String
  deriving Repr, DecidableEq

/-- `StripeService.handleCheckoutCompleted` (`stripeService.ts` lines
252–299), applied to the Payment found by the session id and the User
found by the metadata telegram id (`none` when the lookup misses).  The
value is the Payment and User after the call. -/
def handleCheckoutCompleted (now : Int) (session : CheckoutSession)
    (payment : Option PaymentState) (user : Option UserState) :
    Option PaymentState × Option UserState :=
  if session.metaTelegramId = 0 then (payment, user)
  else
    match payment with
    | none => (payment, user)
    | some p =>
      match user with
      | none => (payment, user)
      | some u =>
        if session.metaType = some "credits" then
          (some { p with status := "completed" },
           some { u with credits := u.credits + session.metaCredits })
        else if session.metaType = some "premium" then
          let durationDays : Int := if session.metaPlan = some "monthly" then 30 else 365
          (some { p with status := "completed" },
           some { u with isPremium := true,
                         premiumUntil := some (now + durationDays * 24 * 60 * 60 * 1000) })
        else (payment, user)

/-- The structured record extracted from the screenshot
(`MatchCandidate` in `src/src/models/types.ts`), restricted to the fields
the photo handler passes onward. -/
structure MatchCandidate where
  teamHome : String
  teamAway : String
  competition : Option String
  ocrConfidence : Int
  deriving Repr, DecidableEq

/-- `MatchAnalyzer.analyzeFromImage` (`src/src/analysis/analyzer.ts` lines
23–106) as a composition of its fallible stages: extraction (step 1),
synthesis (step 7, `analyzeMatchContext` — a JSON-parse failure there
rejects), and rendering (steps 8–9, `buildReport` then
`generateTelegramReport`).  The enrichment steps 2–6 degrade to empty data
instead of rejecting and are folded into the stage inputs.  `α` is the
synthesis output (the Gemini analysis record). -/
def analyzeFromImage {α : Type} (extraction : Except String MatchCandidate)
    (synthesis : MatchCandidate → Except String α)
    (rendering : α → Except String String) :
    Except String (String × MatchCandidate) := do
  let mc ← extraction
  let ga ← synthesis mc
  let msg ← rendering ga
  pure (msg, mc)

/-- The photo handler (`src/src/bot/telegram.ts` lines 966–1085): check the
quota gate (`checkUserQuota`), run `analyzeFromImage` inside `try`, and
only after it resolves call `deductUserMessage` (which runs
`quotaService.deductMessage`).  The value is the user state after the
handler, the Message documents created, and whether an analysis was
delivered (`false` covers both the quota denial reply and the catch
block's error reply). -/
def photoHandler (now : Int) (settings : SettingsState) (u : UserState)
    (analysis : Except String (String × MatchCandidate)) :
    UserState × List MessageRecord × Bool :=
  if !(checkQuota now settings u).allowed then (u, [], false)
  else
    match analysis with
    | .error _ => (u, [], false)
    | .ok (_msg, mc) =>
      match serviceDeductMessage now settings u (some "image") none
          (some mc.teamHome) (some mc.teamAway) mc.competition with
      | none => (u, [], false)
      | some (_res, u', msgs) => (u', msgs, true)

/-- A ledger operation: a credit grant (`QuotaService.addCredits` /
`user.addCredits`, with the non-negative amounts the grant paths pass) or
one debit attempt (`user.deductMessage`). -/
inductive LedgerOp where
  | grant (amount : Nat)
  | debit
  deriving Repr, DecidableEq

/-- Apply one ledger operation.  A debit whose `deductMessage` throws
leaves the account unchanged (the throw happens before any mutation). -/
def applyOp (now : Int) (u : UserState) : LedgerOp → UserState
  | .grant a => addCredits (a : Int) u
  | .debit => (deductMessage now u).getD u

/-- Run a sequence of ledger operations left to right. -/
def runOps (now : Int) (u : UserState) : List LedgerOp → UserState
  | [] => u
  | op :: ops => runOps now (applyOp now u op) ops

/-- The claim-side malformedness condition on the stored catalog: the
array is missing, empty, or has an entry failing the per-entry field
check. -/
def catalogMalformed (settings : SettingsState) : Bool :=
  match settings.creditPackages with
  | none => true
  | some pkgs => pkgs.isEmpty || pkgs.any packageInvalid

/-- A plain settings record with the schema defaults
(`Settings.ts` lines 36–97). -/
def defaultSettingsFx : SettingsState :=
  { freeMessagesLimit := 5, costPerMessage := 1, creditPackages := none,
    premiumEnabled := true, premiumMonthlyPrice := 999,
    premiumYearlyPrice := 7999, maintenanceMode := false }

/-- A fresh user with the schema defaults (part_004 lines 42–110). -/
def baseUser : UserState :=
  { freeMessagesUsed := 0, freeMessagesLimit := 5, credits := 0,
    totalMessagesSent := 0, isPremium := false, premiumUntil := none,
    isAdmin := false, isBanned := false, banReason := none,
    totalSpent := 0, lastActiveAt := 0 }

/-- A non-admin, non-premium user with free slots remaining and a positive
credit balance. -/
def uFree : UserState := { baseUser with freeMessagesUsed := 1, credits := 4, totalMessagesSent := 7 }

/-- A non-admin, non-premium account with the free allotment exhausted and
3 credits. -/
def uExhausted3 : UserState := { baseUser with freeMessagesUsed := 5, credits := 3 }

/-- C1: for a non-admin, non-premium account with free slots remaining and
positive credits, a successful debit increments `freeMessagesUsed` by one
and leaves `credits` unchanged; and in general a debit decrements
`credits` only when the free allotment is exhausted. -/
theorem deduct_free_first :
    (∀ (now : Int) (u : UserState), u.isAdmin = false → premiumActive now u = false →
        u.freeMessagesUsed < u.freeMessagesLimit → 0 < u.credits →
        deductMessage now u =
          some { u with freeMessagesUsed := u.freeMessagesUsed + 1,
                        totalMessagesSent := u.totalMessagesSent + 1,
                        lastActiveAt := now }) ∧
    (∀ (now : Int) (u v : UserState), deductMessage now u = some v →
        v.credits < u.credits → u.freeMessagesLimit ≤ u.freeMessagesUsed) := by
  constructor
  · intro now u hA hP hF _hC
    simp [deductMessage, hA, hP, hF]
  · intro now u v h hlt
    unfold deductMessage at h
    split at h
    · rw [Option.some.injEq] at h
      rw [← h] at hlt
      simp at hlt
    · split at h
      · rw [Option.some.injEq] at h
        rw [← h] at hlt
        simp at hlt
      · split at h
        · rw [Option.some.injEq] at h
          rw [← h] at hlt
          simp at hlt
        · split at h
          · omega
          · simp at h

/-- Witness for `deduct_free_first` at a concrete account. -/
theorem deduct_free_first_witness :
    deductMessage 50 uFree =
      some { uFree with freeMessagesUsed := uFree.freeMessagesUsed + 1,
                        totalMessagesSent := uFree.totalMessagesSent + 1,
                        lastActiveAt := 50 } ∧
    uExhausted3.freeMessagesLimit ≤ uExhausted3.freeMessagesUsed :=
  ⟨deduct_free_first.1 50 uFree (by decide) (by decide) (by decide) (by decide),
   deduct_free_first.2 8 uExhausted3
     { uExhausted3 with credits := uExhausted3.credits - 1,
                        totalSpent := uExhausted3.totalSpent + 1,
                        totalMessagesSent := uExhausted3.totalMessagesSent + 1,
                        lastActiveAt := 8 }
     (by decide) (by decide)⟩

/-- Both account invariants are preserved by one ledger operation. -/
theorem applyOp_inv (now : Int) (u : UserState) (op : LedgerOp)
    (hc : 0 ≤ u.credits) (hf : u.freeMessagesUsed ≤ u.freeMessagesLimit) :
    0 ≤ (applyOp now u op).credits ∧
    (applyOp now u op).freeMessagesUsed ≤ (applyOp now u op).freeMessagesLimit := by
  cases op with
  | grant a =>
    refine ⟨?_, ?_⟩ <;> simp [applyOp, addCredits] <;> omega
  | debit =>
    unfold applyOp
    cases h : deductMessage now u with
    | none => exact ⟨hc, hf⟩
    | some v =>
      simp only [Option.getD]
      unfold deductMessage at h
      split at h
      · rw [Option.some.injEq] at h
        rw [← h]
        exact ⟨hc, hf⟩
      · split at h
        · rw [Option.some.injEq] at h
          rw [← h]
          exact ⟨hc, hf⟩
        · split at h
          · rw [Option.some.injEq] at h
            rw [← h]
            constructor
            · exact hc
            · simp
              omega
          · split at h
            · rw [Option.some.injEq] at h
              rw [← h]
              constructor
              · simp
                omega
              · exact hf
            · simp at h

/-- C4: starting from a valid account (non-negative credits, free usage
within the limit), any sequence of grants and debits keeps `credits`
non-negative and keeps `freeMessagesUsed` within `freeMessagesLimit`. -/
theorem ledger_nonneg (now : Int) (u : UserState) (ops : List LedgerOp)
    (hc : 0 ≤ u.credits) (hf : u.freeMessagesUsed ≤ u.freeMessagesLimit) :
    0 ≤ (runOps now u ops).credits ∧
    (runOps now u ops).freeMessagesUsed ≤ (runOps now u ops).freeMessagesLimit := by
  induction ops generalizing u with
  | nil => exact ⟨hc, hf⟩
  | cons op ops ih =>
    have h := applyOp_inv now u op hc hf
    exact ih (applyOp now u op) h.1 h.2

/-- Witness for `ledger_nonneg` at a concrete account and sequence. -/
theorem ledger_nonneg_witness :
    0 ≤ (runOps 9 uFree [LedgerOp.grant 3, LedgerOp.debit, LedgerOp.debit]).credits ∧
    (runOps 9 uFree [LedgerOp.grant 3, LedgerOp.debit, LedgerOp.debit]).freeMessagesUsed ≤
      (runOps 9 uFree [LedgerOp.grant 3, LedgerOp.debit, LedgerOp.debit]).freeMessagesLimit :=
  ledger_nonneg 9 uFree [LedgerOp.grant 3, LedgerOp.debit, LedgerOp.debit] (by decide) (by decide)

/-- An expired-premium user: `isPremium` still set, `premiumUntil` in the
past. -/
def uExpired : UserState :=
  { baseUser with isPremium := true, premiumUntil := some 999, freeMessagesUsed := 5, credits := 2 }

/-- C6: an account whose `premiumUntil` lies strictly in the past behaves,
in `premiumActive`, `canSendMessage`, `deductMessage` and `checkQuota`,
exactly like the same account with `isPremium := false` — expiry is
evaluated lazily at each call. -/
theorem premium_lazy_expiry (now t : Int) (settings : SettingsState) (u : UserState)
    (hp : u.premiumUntil = some t) (ht : t < now) :
    premiumActive now u = false ∧
    canSendMessage now u = canSendMessage now { u with isPremium := false } ∧
    (u.isAdmin = false →
      deductMessage now u =
        (if u.freeMessagesUsed < u.freeMessagesLimit then
          some { u with freeMessagesUsed := u.freeMessagesUsed + 1,
                        totalMessagesSent := u.totalMessagesSent + 1, lastActiveAt := now }
        else if 1 ≤ u.credits then
          some { u with credits := u.credits - 1, totalSpent := u.totalSpent + 1,
                        totalMessagesSent := u.totalMessagesSent + 1, lastActiveAt := now }
        else none)) ∧
    checkQuota now settings u = checkQuota now settings { u with isPremium := false } := by
  have hpa : premiumActive now u = false := by
    simp [premiumActive, hp]
    omega
  have hpa' : premiumActive now { u with isPremium := false } = false := by
    simp [premiumActive]
  have hcs : canSendMessage now u = canSendMessage now { u with isPremium := false } := by
    simp [canSendMessage, hpa, hpa']
  refine ⟨hpa, hcs, ?_, ?_⟩
  · intro hA
    simp [deductMessage, hpa, hA]
  · simp [checkQuota, hcs, getNoCreditsMessage]

/-- Witness for `premium_lazy_expiry`: the expired account falls through
to its free/credit clauses one millisecond after expiry. -/
theorem premium_lazy_expiry_witness :
    premiumActive 1000 uExpired = false ∧
    canSendMessage 1000 uExpired = canSendMessage 1000 { uExpired with isPremium := false } ∧
    deductMessage 1000 uExpired =
      (if uExpired.freeMessagesUsed < uExpired.freeMessagesLimit then
        some { uExpired with freeMessagesUsed := uExpired.freeMessagesUsed + 1,
                             totalMessagesSent := uExpired.totalMessagesSent + 1,
                             lastActiveAt := 1000 }
      else if 1 ≤ uExpired.credits then
        some { uExpired with credits := uExpired.credits - 1,
                             totalSpent := uExpired.totalSpent + 1,
                             totalMessagesSent := uExpired.totalMessagesSent + 1,
                             lastActiveAt := 1000 }
      else none) ∧
    checkQuota 1000 defaultSettingsFx uExpired =
      checkQuota 1000 defaultSettingsFx { uExpired with isPremium := false } := by
  obtain ⟨h1, h2, h3, h4⟩ :=
    premium_lazy_expiry 1000 999 defaultSettingsFx uExpired (by decide) (by decide)
  exact ⟨h1, h2, h3 (by decide), h4⟩

/-- A banned admin with nothing left to spend. -/
def uAdminBanned : UserState :=
  { baseUser with isAdmin := true, isBanned := true, freeMessagesUsed := 5, credits := 0 }

/-- Counterexample to C9 as stated: for an account with `isAdmin = true`
and `isBanned = true`, the entitlement check `checkQuota` denies — its
banned branch runs before any admin consideration. -/
theorem admin_ban_checkQuota_cex :
    (checkQuota 0 defaultSettingsFx uAdminBanned).allowed = false ∧
    uAdminBanned.isAdmin = true := by decide

/-- C9 amended: admins are always eligible at zero cost in
`canSendMessage` and `deductMessage` (regardless of ban, free allotment or
credits — only the send counter moves), but `checkQuota` checks
`isBanned` first and therefore denies a banned admin. -/
theorem admin_bypass_amended (now : Int) (settings : SettingsState) (u : UserState)
    (h : u.isAdmin = true) :
    canSendMessage now u = true ∧
    deductMessage now u =
      some { u with totalMessagesSent := u.totalMessagesSent + 1, lastActiveAt := now } ∧
    (u.isBanned = true → (checkQuota now settings u).allowed = false) := by
  refine ⟨?_, ?_, ?_⟩
  · simp [canSendMessage, h]
  · simp [deductMessage, h]
  · intro hb
    simp [checkQuota, hb]

/-- Witness for `admin_bypass_amended` at a concrete banned admin. -/
theorem admin_bypass_amended_witness :
    canSendMessage 3 uAdminBanned = true ∧
    deductMessage 3 uAdminBanned =
      some { uAdminBanned with totalMessagesSent := uAdminBanned.totalMessagesSent + 1,
                               lastActiveAt := 3 } ∧
    (checkQuota 3 defaultSettingsFx uAdminBanned).allowed = false := by
  obtain ⟨h1, h2, h3⟩ := admin_bypass_amended 3 defaultSettingsFx uAdminBanned (by decide)
  exact ⟨h1, h2, h3 (by decide)⟩

/-- A banned non-admin with free slots remaining and credits on hand. -/
def uBannedRich : UserState :=
  { baseUser with isBanned := true, banReason := some "spam", freeMessagesUsed := 1, credits := 7 }

/-- C10: for a banned non-admin account the service-level debit fails with
`success = false`, returns the account unchanged, creates no Message
record, and reports `remainingFreeMessages = 0` regardless of the actual
remaining allotment. -/
theorem banned_debit_noop (now : Int) (settings : SettingsState) (u : UserState)
    (hb : u.isBanned = true) (ha : u.isAdmin = false)
    (mtype content home away comp : Option String) :
    serviceDeductMessage now settings u mtype content home away comp =
      some ({ success := false, wasFree := false, cost := 0,
              remainingFreeMessages := 0, remainingCredits := u.credits }, u, []) := by
  have hcs : canSendMessage now u = false := by
    simp [canSendMessage, hb, ha]
  simp [serviceDeductMessage, hcs]

/-- Witness for `banned_debit_noop`: a banned account with free slots
remaining and credits covering the cost still gets the unmutated failure
result. -/
theorem banned_debit_noop_witness :
    serviceDeductMessage 4 defaultSettingsFx uBannedRich (some "image") none none none none =
      some ({ success := false, wasFree := false, cost := 0,
              remainingFreeMessages := 0, remainingCredits := uBannedRich.credits },
            uBannedRich, []) :=
  banned_debit_noop 4 defaultSettingsFx uBannedRich (by decide) (by decide)
    (some "image") none none none none

/-- Counterexample to C7 as stated: for a banned account with its whole
free allotment untouched, `checkQuota` reports `remainingFreeMessages = 0`
instead of the actual `max 0 (freeMessagesLimit - freeMessagesUsed)`. -/
theorem checkQuota_banned_snapshot_cex :
    uBannedRich.isBanned = true ∧
    max 0 (uBannedRich.freeMessagesLimit - uBannedRich.freeMessagesUsed) = 4 ∧
    (checkQuota 0 defaultSettingsFx uBannedRich).remainingFreeMessages = 0 ∧
    (checkQuota 0 defaultSettingsFx uBannedRich).remainingFreeMessages ≠ 4 := by decide

/-- C7 amended: `checkQuota` evaluates banned, then maintenance (sparing
admins), then the spend rule; its result always carries the actual credit
balance and send total, and carries the actual remaining free allotment in
every case except the banned one, where it reports 0. -/
theorem checkQuota_order_snapshot (now : Int) (settings : SettingsState) (u : UserState) :
    (checkQuota now settings u).credits = u.credits ∧
    (checkQuota now settings u).totalMessages = u.totalMessagesSent ∧
    (checkQuota now settings u).remainingFreeMessages =
      (if u.isBanned then 0 else max 0 (u.freeMessagesLimit - u.freeMessagesUsed)) ∧
    (checkQuota now settings u).allowed =
      (!u.isBanned && !(settings.maintenanceMode && !u.isAdmin) && canSendMessage now u) ∧
    (checkQuota now settings u).reason =
      (if u.isBanned then some (u.banReason.getD banFallbackReason)
       else if settings.maintenanceMode && !u.isAdmin then some maintenanceReason
       else if !(canSendMessage now u) then some (getNoCreditsMessage u)
       else none) := by
  by_cases hb : u.isBanned <;>
    by_cases hm : (settings.maintenanceMode && !u.isAdmin) = true <;>
      by_cases hc : canSendMessage now u <;>
        simp [checkQuota, hb, hm, hc]

/-- Settings whose configured per-message cost is 2, exercising the gap
between the configured cost and the hard-coded 1-credit deduction. -/
def settingsCpm2 : SettingsState := { defaultSettingsFx with costPerMessage := 2 }

/-- A non-admin, non-premium account with the free allotment exhausted and
a single credit. -/
def uExhausted1 : UserState := { baseUser with freeMessagesUsed := 5, credits := 1 }

/-- Counterexample to C3 as stated: with `costPerMessage = 2`, an account
with 1 credit is below the configured cost yet is eligible, and a
successful debit of the 3-credit account removes 1 credit, not
`costPerMessage = 2`. -/
theorem credit_clause_cost_cex :
    canSendMessage 0 uExhausted1 = true ∧
    ¬ (settingsCpm2.costPerMessage ≤ uExhausted1.credits) ∧
    ((serviceDeductMessage 0 settingsCpm2 uExhausted3 none none none none none).map
        (fun r => r.2.1.credits)) = some 2 ∧
    some (uExhausted3.credits - settingsCpm2.costPerMessage) ≠ (some 2 : Option Int) := by decide

/-- C3 amended: for a non-admin, non-banned, non-premium account with the
free allotment exhausted, eligibility is `credits ≥ 1` (not
`credits ≥ costPerMessage`), and a successful service debit removes
exactly 1 credit and adds 1 to `totalSpent`, leaving the free counters
unchanged — while the returned result and logged Message record report
`cost = costPerMessage` from Settings. -/
theorem credit_clause_amended (now : Int) (settings : SettingsState) (u : UserState)
    (mtype content home away comp : Option String)
    (hA : u.isAdmin = false) (hB : u.isBanned = false) (hP : premiumActive now u = false)
    (hF : u.freeMessagesLimit ≤ u.freeMessagesUsed) :
    (canSendMessage now u = true ↔ 1 ≤ u.credits) ∧
    (1 ≤ u.credits →
      serviceDeductMessage now settings u mtype content home away comp =
        some ({ success := true, wasFree := false, cost := settings.costPerMessage,
                remainingFreeMessages := max 0 (u.freeMessagesLimit - u.freeMessagesUsed),
                remainingCredits := u.credits - 1 },
              { u with credits := u.credits - 1, totalSpent := u.totalSpent + 1,
                       totalMessagesSent := u.totalMessagesSent + 1, lastActiveAt := now },
              [{ type := mtype.getD "text", content := content, homeTeam := home,
                 awayTeam := away, competition := comp,
                 wasFree := false, cost := settings.costPerMessage }])) := by
  have hnf : ¬ (u.freeMessagesUsed < u.freeMessagesLimit) := by omega
  constructor
  · simp [canSendMessage, hA, hB, hP, hnf]
  · intro hc
    have hcs : canSendMessage now u = true := by
      simp [canSendMessage, hA, hB, hP, hnf, hc]
    simp [serviceDeductMessage, hcs, hnf, deductMessage, hA, hP, hc]

/-- Witness for `credit_clause_amended` at a concrete account and the
non-default configured cost. -/
theorem credit_clause_amended_witness :
    (canSendMessage 8 uExhausted3 = true ↔ 1 ≤ uExhausted3.credits) ∧
    serviceDeductMessage 8 settingsCpm2 uExhausted3 (some "image") none none none none =
      some ({ success := true, wasFree := false, cost := settingsCpm2.costPerMessage,
              remainingFreeMessages :=
                max 0 (uExhausted3.freeMessagesLimit - uExhausted3.freeMessagesUsed),
              remainingCredits := uExhausted3.credits - 1 },
            { uExhausted3 with credits := uExhausted3.credits - 1,
                               totalSpent := uExhausted3.totalSpent + 1,
                               totalMessagesSent := uExhausted3.totalMessagesSent + 1,
                               lastActiveAt := 8 },
            [{ type := (some "image").getD "text", content := none, homeTeam := none,
               awayTeam := none, competition := none,
               wasFree := false, cost := settingsCpm2.costPerMessage }]) := by
  obtain ⟨h1, h2⟩ :=
    credit_clause_amended 8 settingsCpm2 uExhausted3 (some "image") none none none none
      (by decide) (by decide) (by decide) (by decide)
  exact ⟨h1, h2 (by decide)⟩

/-- C8: `getCreditPackages` returns the fixed 4-entry default catalog
(10/50/100/500 units at 100/400/700/2500 centimes) exactly when the stored
catalog is missing, empty, or has an entry failing the field check, and
otherwise maps the stored catalog entry-for-entry. -/
theorem getCreditPackages_fallback (settings : SettingsState) :
    getCreditPackages settings =
      (if catalogMalformed settings then
        [ { id := "pack_10", name := "10 Messages", credits := 10, price := 100,
            messages := 10, popular := false },
          { id := "pack_50", name := "50 Messages", credits := 50, price := 400,
            messages := 50, popular := true },
          { id := "pack_100", name := "100 Messages", credits := 100, price := 700,
            messages := 100, popular := false },
          { id := "pack_500", name := "500 Messages", credits := 500, price := 2500,
            messages := 500, popular := false } ]
      else (settings.creditPackages.getD []).map mapStoredPackage) := by
  unfold getCreditPackages catalogMalformed
  cases settings.creditPackages with
  | none => simp [defaultPackages]
  | some pkgs =>
    cases pkgs with
    | nil => simp [defaultPackages]
    | cons p ps =>
      by_cases hi : (p :: ps).any packageInvalid = true <;> simp [hi, defaultPackages]

/-- The checkout-completed event for a 10-credit pack, as the handler sees
it. -/
def sessionFx : CheckoutSession :=
  { id := "cs_1", metaTelegramId := 42, metaType := some "credits",
    metaCredits := 10, metaPlan := none }

/-- The pending Payment row created at checkout for `sessionFx`. -/
def paymentFx : PaymentState :=
  { stripePaymentIntentId := "cs_1", amount := 100, type := "credits",
    status := "pending", creditsAdded := some 10 }

/-- First delivery of the settlement callback. -/
def settleOnce : Option PaymentState × Option UserState :=
  handleCheckoutCompleted 0 sessionFx (some paymentFx) (some baseUser)

/-- Redelivery of the same settlement callback against the records left by
the first delivery. -/
def settleTwice : Option PaymentState × Option UserState :=
  handleCheckoutCompleted 0 sessionFx settleOnce.1 settleOnce.2

/-- C2: the settlement handler never consults the Payment's status, so
redelivering the same checkout-completed callback grants the credits a
second time: the first delivery leaves 10 credits and a `completed`
Payment, and the second delivery — against that already-`completed`
Payment — raises the balance to 20 instead of leaving it at 10. -/
theorem settlement_replay_double_credits :
    settleOnce.2.map UserState.credits = some 10 ∧
    settleOnce.1.map PaymentState.status = some "completed" ∧
    settleTwice.1.map PaymentState.status = some "completed" ∧
    settleTwice.2.map UserState.credits = some 20 ∧
    settleTwice.2.map UserState.credits ≠ some 10 := by decide

/-- C5: if the synthesis stage of `analyzeFromImage` rejects, the photo
handler creates no Message record, leaves the account untouched, and ends
in the failure reply; the debit runs only on the success path, after the
rendered message exists. -/
theorem pipeline_failure_isolation {α : Type} (now : Int) (settings : SettingsState)
    (u : UserState) (extraction : Except String MatchCandidate)
    (synthesis : MatchCandidate → Except String α) (rendering : α → Except String String)
    (mc : MatchCandidate) (e : String)
    (hx : extraction = Except.ok mc) (hs : synthesis mc = Except.error e) :
    photoHandler now settings u (analyzeFromImage extraction synthesis rendering) =
      (u, [], false) := by
  have hana : analyzeFromImage extraction synthesis rendering = Except.error e := by
    subst hx
    simp [analyzeFromImage, hs, Bind.bind, Except.bind]
  rw [hana]
  unfold photoHandler
  split
  · rfl
  · rfl

/-- A concrete extracted match candidate. -/
def mcFx : MatchCandidate :=
  { teamHome := "PSG", teamAway := "OM", competition := some "L1", ocrConfidence := 90 }

/-- Witness for `pipeline_failure_isolation` at a concrete pipeline whose
synthesis stage rejects with a parse error. -/
theorem pipeline_failure_isolation_witness :
    photoHandler 0 defaultSettingsFx uFree
      (analyzeFromImage (Except.ok mcFx)
        (fun _ => (Except.error "parse" : Except String Unit))
        (fun _ => Except.ok "msg")) = (uFree, [], false) :=
  pipeline_failure_isolation 0 defaultSettingsFx uFree (Except.ok mcFx)
    (fun _ => (Except.error "parse" : Except String Unit))
    (fun _ => Except.ok "msg") mcFx "parse" rfl rfl

end Footbot
